import Mathlib

/-!
Verification of the asset-conversion example (src/subxt/src/main.rs).

The program orchestrates a workflow against a Substrate asset-hub node:
it batches asset/pool setup calls, estimates a transfer fee, converts the
fee into a custom asset via the asset-conversion price oracle, and submits
a transfer whose fee is tipped in that asset (AssetTip signed extension).

The embedding below translates the program's data model and functions into
Lean. Machine integers (u8, u32, u128) are modelled as Nat; where a range
matters it appears as an explicit hypothesis. Network effects are modelled
by passing the remote node's observable behaviour (an outcome value) to
each function; a Rust panic (unwrap on Err/None) is the `panicked`
constructor of `PanicOr`.
-/

namespace AssetConv

/-! ## Data model (types from src/subxt/src/main.rs and its metadata) -/

/-- Junction variants of the XCM v3 MultiLocation interior that the program
uses. In the runtime metadata the Junction enum has variants with SCALE tags
Parachain = 0, AccountId32 = 1, AccountIndex64 = 2, AccountKey20 = 3,
PalletInstance = 4 (u8 payload), GeneralIndex = 5 (compact u128 payload);
the program constructs only PalletInstance and GeneralIndex. -/
inductive Junction
  | PalletInstance (idx : Nat)
  | GeneralIndex (idx : Nat)
deriving DecidableEq

/-- Junctions variants the program uses: Here (SCALE tag 0) and X2
(SCALE tag 2, two Junction payloads). -/
inductive Junctions
  | Here
  | X2 (j1 j2 : Junction)
deriving DecidableEq

/-- MultiLocation: parents is a u8, interior a Junctions value. -/
structure MultiLocation where
  parents : Nat
  interior : Junctions
deriving DecidableEq

/-- A tip payment made in the form of a specific asset
(struct AssetTip, main.rs lines 56-61): a compact-encoded u128 amount
and an optional asset MultiLocation. -/
structure AssetTip where
  tip : Nat
  asset : Option MultiLocation
deriving DecidableEq

/-- AssetTip::new (main.rs lines 65-70): a tip of the given amount, no asset. -/
def AssetTip.new (amount : Nat) : AssetTip :=
  { tip := amount, asset := none }

/-- AssetTip::of_asset (main.rs lines 74-77): designate the tip as being of a
particular asset class; returns the tip with the asset field set. -/
def AssetTip.of_asset (t : AssetTip) (asset : MultiLocation) : AssetTip :=
  { t with asset := some asset }

/-- impl From of u128 for AssetTip (main.rs lines 80-84). -/
def AssetTip.fromU128 (n : Nat) : AssetTip :=
  AssetTip.new n

/-- derive(Default) for AssetTip: tip 0, asset None. This is the tip that
WestmintExtrinsicParamsBuilder::new() carries when no tip is set. -/
def AssetTip.defaultValue : AssetTip :=
  { tip := 0, asset := none }

/-- Constant ASSET_ID = 1 (main.rs line 27). -/
def ASSET_ID : Nat := 1

/-- Constant NAME = "Asset1" (main.rs line 28). -/
def NAME : String := "Asset1"

/-- Constant SYMBOL = "A1" (main.rs line 29). -/
def SYMBOL : String := "A1"

/-- Rust str::as_bytes().to_vec() for the ASCII strings the program uses:
the list of code points (for ASCII these are exactly the UTF-8 bytes). -/
def strBytes (s : String) : List Nat :=
  s.toList.map (fun c => c.toNat)

/-- The native asset MultiLocation { parents: 1, interior: Here } used for
pool creation and fee conversion. -/
def nativeLocation : MultiLocation :=
  { parents := 1, interior := Junctions.Here }

/-- The custom asset MultiLocation
{ parents: 0, interior: X2(PalletInstance(50), GeneralIndex(ASSET_ID)) }. -/
def assetLocation : MultiLocation :=
  { parents := 0
  , interior := Junctions.X2 (Junction.PalletInstance 50)
      (Junction.GeneralIndex ASSET_ID) }

/-! ## SCALE encoding of AssetTip

AssetTip derives Encode with a compact codec attribute on the u128 tip
field, so its wire form is the SCALE compact encoding of the amount
followed by the encoding of the optional MultiLocation. The struct does
not derive Decode in main.rs; the decoder below is the codec library's
inverse. Modelled from the spec: the tip encodes as a compact-uint amount
plus an optional asset, and decode is the inverse used by the chain when
it reads the signed extra data. -/

/-- Little-endian byte list of length k holding n (low k bytes). -/
def toLE : Nat → Nat → List Nat
  | _, 0 => []
  | n, k + 1 => n % 256 :: toLE (n / 256) k

/-- Value of a little-endian byte list. -/
def fromLE : List Nat → Nat
  | [] => 0
  | b :: bs => b + 256 * fromLE bs

/-- Minimal number of bytes needed to store n (at least 1). -/
def byteLen (n : Nat) : Nat :=
  if _h : n < 256 then 1 else byteLen (n / 256) + 1
termination_by n
decreasing_by exact Nat.div_lt_self (by omega) (by omega)

/-- SCALE compact encoding of an unsigned integer: four forms selected by
value range, discriminated by the low two bits of the first byte. -/
def compactEncode (n : Nat) : List Nat :=
  if n < 64 then [4 * n]
  else if n < 16384 then toLE (4 * n + 1) 2
  else if n < 1073741824 then toLE (4 * n + 2) 4
  else (4 * (byteLen n - 4) + 3) :: toLE n (byteLen n)

/-- SCALE compact decoding: reads the mode from the low two bits of the
first byte and consumes the corresponding number of bytes. -/
def compactDecode : List Nat → Option (Nat × List Nat)
  | [] => none
  | b :: bs =>
    if b % 4 = 0 then some (b / 4, bs)
    else if b % 4 = 1 then
      match bs with
      | b2 :: rest => some ((b + 256 * b2) / 4, rest)
      | [] => none
    else if b % 4 = 2 then
      match bs with
      | b2 :: b3 :: b4 :: rest =>
          some ((b + 256 * b2 + 65536 * b3 + 16777216 * b4) / 4, rest)
      | _ => none
    else
      let k := b / 4 + 4
      if k ≤ bs.length then some (fromLE (bs.take k), bs.drop k)
      else none

/-- SCALE encoding of a Junction (enum tag byte, then payload;
PalletInstance carries a u8, GeneralIndex a compact u128). -/
def encodeJunction : Junction → List Nat
  | Junction.PalletInstance i => [4, i]
  | Junction.GeneralIndex i => 5 :: compactEncode i

/-- SCALE decoding of a Junction (the variants the program uses). -/
def decodeJunction : List Nat → Option (Junction × List Nat)
  | 4 :: b :: rest => some (Junction.PalletInstance b, rest)
  | 5 :: rest =>
      (compactDecode rest).map (fun p => (Junction.GeneralIndex p.1, p.2))
  | _ => none

/-- SCALE encoding of Junctions (enum tag byte, then the junction payloads). -/
def encodeJunctions : Junctions → List Nat
  | Junctions.Here => [0]
  | Junctions.X2 j1 j2 => 2 :: (encodeJunction j1 ++ encodeJunction j2)

/-- SCALE decoding of Junctions (the variants the program uses). -/
def decodeJunctions : List Nat → Option (Junctions × List Nat)
  | 0 :: rest => some (Junctions.Here, rest)
  | 2 :: rest =>
      match decodeJunction rest with
      | none => none
      | some (j1, r1) =>
        match decodeJunction r1 with
        | none => none
        | some (j2, r2) => some (Junctions.X2 j1 j2, r2)
  | _ => none

/-- SCALE encoding of a MultiLocation: u8 parents byte, then the interior. -/
def encodeMultiLocation (m : MultiLocation) : List Nat :=
  m.parents :: encodeJunctions m.interior

/-- SCALE decoding of a MultiLocation. -/
def decodeMultiLocation : List Nat → Option (MultiLocation × List Nat)
  | [] => none
  | p :: rest =>
      (decodeJunctions rest).map
        (fun q => ({ parents := p, interior := q.1 }, q.2))

/-- SCALE encoding of Option of MultiLocation: 0 for None, 1 then the
payload for Some. -/
def encodeOptionML : Option MultiLocation → List Nat
  | none => [0]
  | some m => 1 :: encodeMultiLocation m

/-- SCALE decoding of Option of MultiLocation. -/
def decodeOptionML : List Nat → Option (Option MultiLocation × List Nat)
  | 0 :: rest => some (none, rest)
  | 1 :: rest =>
      (decodeMultiLocation rest).map (fun q => (some q.1, q.2))
  | _ => none

/-- The derived Encode for AssetTip: compact tip amount, then the
optional asset. -/
def encodeAssetTip (t : AssetTip) : List Nat :=
  compactEncode t.tip ++ encodeOptionML t.asset

/-- The codec inverse of encodeAssetTip. -/
def decodeAssetTip (bs : List Nat) : Option (AssetTip × List Nat) :=
  match compactDecode bs with
  | none => none
  | some (amount, r1) =>
    match decodeOptionML r1 with
    | none => none
    | some (asset, r2) => some ({ tip := amount, asset := asset }, r2)

/-- Well-formedness of a Junction: payload in the range of its Rust type
(u8 for PalletInstance, u128 for GeneralIndex). -/
def Junction.wf : Junction → Prop
  | Junction.PalletInstance i => i < 256
  | Junction.GeneralIndex i => i < 2 ^ 128

/-- Well-formedness of Junctions: all junction payloads in range. -/
def Junctions.wf : Junctions → Prop
  | Junctions.Here => True
  | Junctions.X2 j1 j2 => j1.wf ∧ j2.wf

/-- Well-formedness of a MultiLocation: parents is a u8, interior in range. -/
def MultiLocation.wf (m : MultiLocation) : Prop :=
  m.parents < 256 ∧ m.interior.wf

/-- Well-formedness of an optional asset location. -/
def optWf : Option MultiLocation → Prop
  | none => True
  | some m => m.wf

/-- A constructible AssetTip: the amount fits u128 and the asset, when
present, has all fields in the range of their Rust types. -/
def AssetTip.wf (t : AssetTip) : Prop :=
  t.tip < 2 ^ 128 ∧ optWf t.asset

instance : DecidablePred Junction.wf := fun j =>
  match j with
  | Junction.PalletInstance i => inferInstanceAs (Decidable (i < 256))
  | Junction.GeneralIndex i => inferInstanceAs (Decidable (i < 2 ^ 128))

instance : DecidablePred Junctions.wf := fun js =>
  match js with
  | Junctions.Here => inferInstanceAs (Decidable True)
  | Junctions.X2 j1 j2 =>
      inferInstanceAs (Decidable (Junction.wf j1 ∧ Junction.wf j2))

instance (m : MultiLocation) : Decidable m.wf :=
  inferInstanceAs (Decidable (m.parents < 256 ∧ Junctions.wf m.interior))

instance : DecidablePred optWf := fun o =>
  match o with
  | none => inferInstanceAs (Decidable True)
  | some m => inferInstanceAs (Decidable m.wf)

instance (t : AssetTip) : Decidable t.wf :=
  inferInstanceAs (Decidable (t.tip < 2 ^ 128 ∧ optWf t.asset))

/-! ## Calls and builders (main.rs lines 86-175)

The builder functions produce RuntimeCall values for the batch. Accounts
are the two fixed dev identities the program uses. Each builder returns a
Result (always Ok in the source); the Except mirrors that. -/

/-- The dev identities used by the program (dev::alice(), dev::bob()). -/
inductive AccountRef
  | alice
  | bob
deriving DecidableEq

/-- RuntimeCall values produced by the builder functions. -/
inductive Call
  | assetsCreate (id : Nat) (admin : AccountRef) (minBalance : Nat)
  | assetsSetMetadata (id : Nat) (name symbol : List Nat) (decimals : Nat)
  | assetsMint (id : Nat) (beneficiary : AccountRef) (amount : Nat)
  | assetConversionCreatePool (asset1 asset2 : MultiLocation)
  | assetConversionAddLiquidity (asset1 asset2 : MultiLocation)
      (amount1Desired amount2Desired amount1Min amount2Min : Nat)
      (mintTo : AccountRef)
deriving DecidableEq

/-- create_asset_call (main.rs lines 87-98): pallet-assets create with the
fixed ASSET_ID. -/
def create_asset_call (admin : AccountRef) (minBalance : Nat) :
    Except String Call :=
  Except.ok (Call.assetsCreate ASSET_ID admin minBalance)

/-- set_asset_metadata_call (main.rs lines 101-115). -/
def set_asset_metadata_call (assetId : Nat) (name symbol : List Nat)
    (decimals : Nat) : Except String Call :=
  Except.ok (Call.assetsSetMetadata assetId name symbol decimals)

/-- mint_token_call (main.rs lines 118-129): pallet-assets mint with the
fixed ASSET_ID. -/
def mint_token_call (beneficiary : AccountRef) (amount : Nat) :
    Except String Call :=
  Except.ok (Call.assetsMint ASSET_ID beneficiary amount)

/-- create_pool_with_native_call (main.rs lines 132-145): both pool legs are
fixed, native vs the custom asset location. -/
def create_pool_with_native_call : Except String Call :=
  Except.ok (Call.assetConversionCreatePool nativeLocation assetLocation)

/-- provide_liquidity_to_token_native_pool_call (main.rs lines 148-175):
fixed pool legs, caller supplies only the amounts and the mint-to account. -/
def provide_liquidity_to_token_native_pool_call
    (amount1Desired amount2Desired amount1Min amount2Min : Nat)
    (mintTo : AccountRef) : Except String Call :=
  Except.ok (Call.assetConversionAddLiquidity nativeLocation assetLocation
    amount1Desired amount2Desired amount1Min amount2Min mintTo)

/-! ## Submission model (main.rs lines 179-276)

Each submitting function signs a transaction payload, attaches extrinsic
parameters (whose tip is an AssetTip), and drives the watch to a chosen
stopping point. The Submission record captures what is submitted and how
far the watcher waits; the Except result captures the returned value,
as a function of the node's observable behaviour. -/

/-- The transaction payloads the program signs and submits. -/
inductive Tx
  | utilityBatchAll (calls : List Call)
  | balancesTransferKeepAlive (dest : AccountRef) (amount : Nat)
deriving DecidableEq

/-- How far a submission watches its transaction: inclusion in a block, or
finalization. -/
inductive WaitMode
  | inBlock
  | finalized
deriving DecidableEq

/-- What a submitting function sends: the payload, the tip carried by its
extrinsic parameters, and how far it waits. -/
structure Submission where
  tx : Tx
  tipParam : AssetTip
  wait : WaitMode
deriving DecidableEq

/-- The subxt error variants the program can observe: Runtime wraps a
dispatch error from the chain, Rpc is a transport failure, Codec an
event-decoding failure. -/
inductive SubxtError
  | Runtime (dispatchErr : String)
  | Rpc (msg : String)
  | Codec (msg : String)
deriving DecidableEq

/-- Observable behaviour of the node for a batch submission watched to
in-block success: a transport failure at some await, a dispatch error
found in the events, or inclusion with success. -/
inductive BatchOutcome
  | transportError (msg : String)
  | dispatchError (msg : String)
  | inBlockSuccess
deriving DecidableEq

/-- sign_and_send_batch_calls (main.rs lines 179-196): wraps the calls in
utility.batch_all, signs with alice and default extrinsic parameters
(default AssetTip), submits, and waits for in-block success only (the
watch is wait_for_in_block followed by wait_for_success; it never waits
for finalization). -/
def sign_and_send_batch_calls (outcome : BatchOutcome) (calls : List Call) :
    Submission × Except SubxtError Unit :=
  ( { tx := Tx.utilityBatchAll calls
    , tipParam := AssetTip.defaultValue
    , wait := WaitMode.inBlock }
  , match outcome with
    | BatchOutcome.transportError m => Except.error (SubxtError.Rpc m)
    | BatchOutcome.dispatchError m => Except.error (SubxtError.Runtime m)
    | BatchOutcome.inBlockSuccess => Except.ok () )

/-- Events of a finalized block that the program inspects. -/
inductive EventKind
  | assetTxFeePaid
  | otherEvent (name : String)
deriving DecidableEq

/-- Observable behaviour of the node for the tip-paid transfer watched to
finalized success: transport failure, dispatch error, an event-decoding
failure while scanning the finalized events, or finalized success with
the given event list. -/
inductive TransferChainOutcome
  | transportError (msg : String)
  | dispatchError (msg : String)
  | finalizedDecodeError (msg : String)
  | finalizedSuccess (events : List EventKind)
deriving DecidableEq

/-- sign_and_send_transfer (main.rs lines 252-276): builds
balances.transfer_keep_alive, attaches extrinsic parameters with tip
AssetTip::new(0).of_asset(multi), submits, waits for finalized success,
then calls has::(AssetTxFeePaid) on the events. has returns Result(bool):
the question mark propagates only its decoding errors, and the boolean
presence result is discarded by the trailing semicolon, so the function
returns Ok(()) whether or not the event is present. -/
def sign_and_send_transfer (outcome : TransferChainOutcome)
    (dest : AccountRef) (amount : Nat) (multi : MultiLocation) :
    Submission × Except SubxtError Unit :=
  ( { tx := Tx.balancesTransferKeepAlive dest amount
    , tipParam := (AssetTip.new 0).of_asset multi
    , wait := WaitMode.finalized }
  , match outcome with
    | TransferChainOutcome.transportError m => Except.error (SubxtError.Rpc m)
    | TransferChainOutcome.dispatchError m =>
        Except.error (SubxtError.Runtime m)
    | TransferChainOutcome.finalizedDecodeError m =>
        Except.error (SubxtError.Codec m)
    | TransferChainOutcome.finalizedSuccess events =>
        let _present : Bool := events.contains EventKind.assetTxFeePaid
        Except.ok () )

/-! ## Fee estimation and conversion (main.rs lines 200-247) -/

/-- A computation that either produces a value or aborts the process
(a Rust panic from unwrap). -/
inductive PanicOr (α : Type)
  | panicked (msg : String)
  | value (v : α)
deriving DecidableEq

/-- The panic message of Option::unwrap on None. -/
def unwrapNoneMsg : String :=
  "called Option::unwrap() on a None value"

/-- Observable behaviour of the node for estimate_fees: transport failure
at create_signed or partial_fee_estimate, or a reported partial fee. -/
inductive EstimateOutcome
  | transportError (msg : String)
  | fee (partialFee : Nat)
deriving DecidableEq

/-- estimate_fees (main.rs lines 200-216): creates a signed
balances.transfer_keep_alive without submitting it, asks the node for the
partial fee estimate, prints it and returns it. Both awaits are unwrapped,
so a transport failure panics. -/
def estimate_fees (outcome : EstimateOutcome) (_dest : AccountRef)
    (_amount : Nat) : PanicOr (Except String Nat) :=
  match outcome with
  | EstimateOutcome.transportError m => PanicOr.panicked m
  | EstimateOutcome.fee f => PanicOr.value (Except.ok f)

/-- Observable behaviour of the node for the price-oracle runtime call:
transport failure, or the oracle's quote (None when there is no
route/liquidity for the pair). -/
inductive RuntimeApiOutcome
  | transportError (msg : String)
  | quote (result : Option Nat)
deriving DecidableEq

/-- convert_fees (main.rs lines 220-247): calls the asset-conversion
quote_price_exact_tokens_for_tokens runtime API from native to the custom
asset with include_fee = true. The runtime-api call is unwrapped, so a
transport failure panics; the oracle's Option result is unwrapped inside
the println argument, so a None quote (no route) also panics; on Some the
quoted amount is only printed and the function returns Ok(()). -/
def convert_fees (outcome : RuntimeApiOutcome) (_amount : Nat) :
    PanicOr (Except String Unit) :=
  match outcome with
  | RuntimeApiOutcome.transportError m => PanicOr.panicked m
  | RuntimeApiOutcome.quote none => PanicOr.panicked unwrapNoneMsg
  | RuntimeApiOutcome.quote (some _q) => PanicOr.value (Except.ok ())

/-! ## Setup orchestrator and main (main.rs lines 281-347) -/

/-- Amount minted during setup (main.rs line 298). -/
def AMOUNT_TO_MINT : Nat := 100000000000000

/-- The call buffer assembled by prepare_setup (main.rs lines 285-313):
create asset, set metadata, mint, create pool, add liquidity, pushed in
that order. Each builder result is unwrapped in the source; the bind here
propagates an error the same way the unwrap would abort. -/
def setupCallsE : Except String (List Call) := do
  let c1 ← create_asset_call AccountRef.alice 1
  let c2 ← set_asset_metadata_call ASSET_ID (strBytes NAME) (strBytes SYMBOL) 0
  let c3 ← mint_token_call AccountRef.alice AMOUNT_TO_MINT
  let c4 ← create_pool_with_native_call
  let c5 ← provide_liquidity_to_token_native_pool_call
      10000000000 10000000 0 0 AccountRef.alice
  pure [c1, c2, c3, c4, c5]

/-- prepare_setup (main.rs lines 281-320): builds the call buffer (a
builder unwrap failing would panic), submits it as one batch through
sign_and_send_batch_calls, and pattern-matches the result with
if-let Err(subxt::Error::Runtime(e)): a dispatch error is printed to
stderr; every other result, including a transport error, matches nothing
and the function returns normally. The returned list is the stderr lines
the function prints. -/
def prepare_setup (outcome : BatchOutcome) :
    PanicOr (Submission × List String) :=
  match setupCallsE with
  | Except.error m => PanicOr.panicked m
  | Except.ok calls =>
    let sent := sign_and_send_batch_calls outcome calls
    PanicOr.value
      ( sent.1
      , match sent.2 with
        | Except.error (SubxtError.Runtime d) =>
            ["Could not dispatch the call: " ++ d]
        | _ => [] )

/-- The node-side behaviour of one whole run: the outcome of each network
interaction the workflow performs. -/
structure Env where
  setupOutcome : BatchOutcome
  estimateOutcome : EstimateOutcome
  convertOutcome : RuntimeApiOutcome
  transferOutcome : TransferChainOutcome
deriving DecidableEq

deriving instance DecidableEq for Except

/-- The observable steps of a run of main. -/
inductive StepEvent
  | setupSubmitted (s : Submission)
  | setupDone (stderrLines : List String)
  | sleepSecs (secs : Nat)
  | estimated (fee : Nat)
  | converted
  | transferSubmitted (s : Submission)
  | transferReturned (r : Except SubxtError Unit)
deriving DecidableEq

/-- main (main.rs lines 322-347): runs prepare_setup, sleeps a fixed 2
seconds, estimates the fee for a 100000 transfer to bob (unwrapping the
result), feeds the fee to convert_fees (whose result is bound to an
ignored variable), and submits the tip-paid transfer of 100000 to bob
with the custom asset location, ignoring its result. Returns the trace
of steps, or the panic that aborted the run. -/
def mainRun (env : Env) : PanicOr (List StepEvent) :=
  match prepare_setup env.setupOutcome with
  | PanicOr.panicked m => PanicOr.panicked m
  | PanicOr.value setup =>
    match estimate_fees env.estimateOutcome AccountRef.bob 100000 with
    | PanicOr.panicked m => PanicOr.panicked m
    | PanicOr.value (Except.error e) => PanicOr.panicked e
    | PanicOr.value (Except.ok fee) =>
      match convert_fees env.convertOutcome fee with
      | PanicOr.panicked m => PanicOr.panicked m
      | PanicOr.value _convertedFee =>
        let transfer := sign_and_send_transfer env.transferOutcome
          AccountRef.bob 100000 assetLocation
        PanicOr.value
          [ StepEvent.setupSubmitted setup.1
          , StepEvent.setupDone setup.2
          , StepEvent.sleepSecs 2
          , StepEvent.estimated fee
          , StepEvent.converted
          , StepEvent.transferSubmitted transfer.1
          , StepEvent.transferReturned transfer.2 ]

/-- The five setup calls of the end-to-end scenario, written out: create
asset 1 with min balance 1, set its metadata to name Asset1 / symbol A1 /
decimals 0, mint 100000000000000, create the native-vs-asset-1 pool, add
liquidity with desired amounts (10000000000, 10000000) and minimums
(0, 0). This is the expected content of the setup batch, spelled
explicitly for the statements below. -/
def expectedSetupCalls : List Call :=
  [ Call.assetsCreate 1 AccountRef.alice 1
  , Call.assetsSetMetadata 1 (strBytes "Asset1") (strBytes "A1") 0
  , Call.assetsMint 1 AccountRef.alice 100000000000000
  , Call.assetConversionCreatePool nativeLocation assetLocation
  , Call.assetConversionAddLiquidity nativeLocation assetLocation
      10000000000 10000000 0 0 AccountRef.alice ]

/-- The expected tip-paid transfer submission: transfer-keep-alive of
100000 to bob, tip AssetTip::new(0).of_asset(custom asset), watched to
finalization. -/
def expectedTransferSubmission : Submission :=
  { tx := Tx.balancesTransferKeepAlive AccountRef.bob 100000
  , tipParam := (AssetTip.new 0).of_asset assetLocation
  , wait := WaitMode.finalized }

/-! ## Codec lemmas -/

/-- A little-endian block of k bytes has length k. -/
theorem toLE_length (k : Nat) : ∀ n, (toLE n k).length = k := by
  induction k with
  | zero => intro n; rfl
  | succ k ih => intro n; simp [toLE, ih]

/-- Reading back a little-endian block recovers the value when it fits. -/
theorem fromLE_toLE (k : Nat) : ∀ n, n < 256 ^ k → fromLE (toLE n k) = n := by
  induction k with
  | zero =>
    intro n h
    simp only [pow_zero, Nat.lt_one_iff] at h
    simp [h, toLE, fromLE]
  | succ k ih =>
    intro n h
    have hdiv : n / 256 < 256 ^ k := by
      rw [Nat.div_lt_iff_lt_mul (by omega)]
      calc n < 256 ^ (k + 1) := h
        _ = 256 ^ k * 256 := by rw [Nat.pow_succ]
    simp only [toLE, fromLE, ih (n / 256) hdiv]
    omega

/-- byteLen is at least one. -/
theorem byteLen_pos (n : Nat) : 1 ≤ byteLen n := by
  rw [byteLen]
  split <;> omega

/-- Every value fits in byteLen of it bytes. -/
theorem lt_pow_byteLen (n : Nat) : n < 256 ^ byteLen n := by
  induction n using Nat.strong_induction_on with
  | _ n ih =>
    rw [byteLen]
    split
    · simpa using ‹n < 256›
    · have hlt : n / 256 < n := Nat.div_lt_self (by omega) (by omega)
      have hind := ih (n / 256) hlt
      rw [Nat.pow_succ]
      have hmod := Nat.div_add_mod n 256
      have : n % 256 < 256 := Nat.mod_lt n (by omega)
      set B := 256 ^ byteLen (n / 256) with hB
      omega

/-- byteLen is minimal: a value at least 256 to the k needs more than k
bytes. -/
theorem pow_le_byteLen (k : Nat) : ∀ n, 256 ^ k ≤ n → k + 1 ≤ byteLen n := by
  induction k with
  | zero => intro n _; exact byteLen_pos n
  | succ k ih =>
    intro n h
    have h256 : 256 ≤ n :=
      le_trans (Nat.le_self_pow (by omega) 256) h
    have hdiv : 256 ^ k ≤ n / 256 := by
      rw [Nat.le_div_iff_mul_le (by omega)]
      calc 256 ^ k * 256 = 256 ^ (k + 1) := (Nat.pow_succ 256 k).symm
        _ ≤ n := h
    have := ih (n / 256) hdiv
    rw [byteLen]
    split
    · omega
    · omega

/-- Compact SCALE roundtrip: decoding an encoded value consumes exactly the
encoding and returns the value, for every natural number. -/
theorem compactDecode_compactEncode (n : Nat) (rest : List Nat) :
    compactDecode (compactEncode n ++ rest) = some (n, rest) := by
  by_cases h1 : n < 64
  · have e0 : (4 * n) % 4 = 0 := by omega
    have d0 : 4 * n / 4 = n := by omega
    simp only [compactEncode, if_pos h1, List.cons_append, List.nil_append,
      compactDecode, e0, if_pos rfl, d0, if_true, eq_self_iff_true]
  · by_cases h2 : n < 16384
    · have hv : 4 * n + 1 < 65536 := by omega
      simp only [compactEncode, if_neg h1, if_pos h2, toLE,
        List.cons_append, List.nil_append, compactDecode]
      have e1 : (4 * n + 1) % 256 % 4 = 1 := by omega
      rw [if_neg (by omega), if_pos e1]
      congr 1
      congr 1
      omega
    · by_cases h3 : n < 1073741824
      · have hv : 4 * n + 2 < 4294967296 := by omega
        simp only [compactEncode, if_neg h1, if_neg h2, if_pos h3, toLE,
          List.cons_append, List.nil_append, compactDecode]
        have e2 : (4 * n + 2) % 256 % 4 = 2 := by omega
        rw [if_neg (by omega), if_neg (by omega), if_pos e2]
        congr 1
        congr 1
        omega
      · have hlen : 4 ≤ byteLen n := by
          have : 256 ^ 3 ≤ n := by omega
          have := pow_le_byteLen 3 n this
          omega
        have hb3 : (4 * (byteLen n - 4) + 3) % 4 = 3 := by omega
        simp only [compactEncode, if_neg h1, if_neg h2, if_neg h3,
          List.cons_append, compactDecode]
        rw [if_neg (by omega), if_neg (by omega), if_neg (by omega)]
        have hk : (4 * (byteLen n - 4) + 3) / 4 + 4 = byteLen n := by omega
        have hlenLE : (toLE n (byteLen n)).length = byteLen n :=
          toLE_length (byteLen n) n
        rw [hk]
        rw [if_pos (by rw [List.length_append, hlenLE]; omega)]
        rw [List.take_left' hlenLE, List.drop_left' hlenLE,
          fromLE_toLE (byteLen n) n (lt_pow_byteLen n)]

/-- Junction roundtrip with an arbitrary tail. -/
theorem decodeJunction_encodeJunction (j : Junction) (rest : List Nat) :
    decodeJunction (encodeJunction j ++ rest) = some (j, rest) := by
  cases j with
  | PalletInstance i => rfl
  | GeneralIndex i =>
    simp [encodeJunction, decodeJunction, compactDecode_compactEncode]

/-- Junctions roundtrip with an arbitrary tail. -/
theorem decodeJunctions_encodeJunctions (js : Junctions) (rest : List Nat) :
    decodeJunctions (encodeJunctions js ++ rest) = some (js, rest) := by
  cases js with
  | Here => rfl
  | X2 j1 j2 =>
    simp only [encodeJunctions, List.cons_append, List.append_assoc,
      decodeJunctions, decodeJunction_encodeJunction]

/-- MultiLocation roundtrip with an arbitrary tail. -/
theorem decodeMultiLocation_encodeMultiLocation (m : MultiLocation)
    (rest : List Nat) :
    decodeMultiLocation (encodeMultiLocation m ++ rest) = some (m, rest) := by
  simp [encodeMultiLocation, decodeMultiLocation,
    decodeJunctions_encodeJunctions m.interior rest]

/-- Optional MultiLocation roundtrip with an arbitrary tail. -/
theorem decodeOptionML_encodeOptionML (o : Option MultiLocation)
    (rest : List Nat) :
    decodeOptionML (encodeOptionML o ++ rest) = some (o, rest) := by
  cases o with
  | none => rfl
  | some m =>
    simp [encodeOptionML, decodeOptionML,
      decodeMultiLocation_encodeMultiLocation m rest]

/-- AssetTip roundtrip: the decoder consumes the whole encoding and
returns the tip. -/
theorem decodeAssetTip_encodeAssetTip (t : AssetTip) :
    decodeAssetTip (encodeAssetTip t) = some (t, []) := by
  have h1 := compactDecode_compactEncode t.tip (encodeOptionML t.asset)
  have h2 := decodeOptionML_encodeOptionML t.asset []
  rw [List.append_nil] at h2
  simp [decodeAssetTip, encodeAssetTip, h1, h2]

/-! ## Claim theorems -/

/-- C1: the claim says that when the tip-paid transfer finalizes
successfully, the operation asserts the AssetTxFeePaid event is present
and returns a distinct verification error when it is absent. The code
instead discards the boolean result of has::(AssetTxFeePaid) (the
question mark propagates only decoding errors), contradicting its own
comment about listening for the event that confirms the fee was paid:
evaluated at a run that finalizes successfully with no AssetTxFeePaid
event in the block, the operation still returns Ok. -/
theorem transfer_missing_fee_event_still_ok :
    (sign_and_send_transfer (TransferChainOutcome.finalizedSuccess [])
        AccountRef.bob 100000 assetLocation).2 = Except.ok ()
    ∧ (sign_and_send_transfer
        (TransferChainOutcome.finalizedSuccess
          [EventKind.otherEvent "Balances.Transfer"])
        AccountRef.bob 100000 assetLocation).2 = Except.ok () :=
  ⟨rfl, rfl⟩

/-- C2 counterexample: convert_fees does not return the converted amount
in its Ok result (two different oracle quotes produce the identical
result), and a no-route oracle answer does not produce a distinct
reportable error kind: it aborts exactly like a transport failure
carrying the same panic message would. -/
theorem convert_fees_claim_counterexample :
    convert_fees (RuntimeApiOutcome.quote (some 12345)) 100
      = convert_fees (RuntimeApiOutcome.quote (some 67890)) 100
    ∧ convert_fees (RuntimeApiOutcome.quote none) 100
      = PanicOr.panicked unwrapNoneMsg
    ∧ convert_fees (RuntimeApiOutcome.quote none) 100
      = convert_fees (RuntimeApiOutcome.transportError unwrapNoneMsg) 100 :=
  ⟨rfl, rfl, rfl⟩

/-- C2 amended: convert_fees only prints the converted amount; its Ok
result is unit and is independent of the oracle's quote. When the oracle
reports no route (None) the function panics through unwrap, the same
failure mode as a transport error, rather than returning a distinct
error kind. -/
theorem convert_fees_conversion_behavior (q1 q2 amt : Nat) (m : String) :
    convert_fees (RuntimeApiOutcome.quote (some q1)) amt
      = PanicOr.value (Except.ok ())
    ∧ convert_fees (RuntimeApiOutcome.quote (some q1)) amt
      = convert_fees (RuntimeApiOutcome.quote (some q2)) amt
    ∧ convert_fees (RuntimeApiOutcome.quote none) amt
      = PanicOr.panicked unwrapNoneMsg
    ∧ convert_fees (RuntimeApiOutcome.transportError m) amt
      = PanicOr.panicked m :=
  ⟨rfl, rfl, rfl, rfl⟩

/-- C3 counterexample: a transport error in the setup batch submission is
silently swallowed. prepare_setup at a transport-error outcome returns
normally with no stderr output: the if-let matches only
Error::Runtime, so the transport error is neither logged nor
propagated. -/
theorem setup_transport_swallowed_counterexample :
    prepare_setup (BatchOutcome.transportError "connection timed out")
      = PanicOr.value
        ( { tx := Tx.utilityBatchAll expectedSetupCalls
          , tipParam := AssetTip.defaultValue
          , wait := WaitMode.inBlock }
        , [] ) :=
  rfl

/-- C3 amended: a transport error in fee estimation or fee conversion
aborts the process through unwrap, and one in the tip-paid transfer or
in the batch submitter is returned to the caller as an Rpc error; but a
transport error in the setup batch submission is silently swallowed by
prepare_setup, whose if-let handles only Runtime (dispatch) errors, so
it produces no stderr line and returns normally. -/
theorem transport_error_surfacing (m : String) (amt : Nat)
    (calls : List Call) :
    estimate_fees (EstimateOutcome.transportError m) AccountRef.bob amt
      = PanicOr.panicked m
    ∧ convert_fees (RuntimeApiOutcome.transportError m) amt
      = PanicOr.panicked m
    ∧ (sign_and_send_transfer (TransferChainOutcome.transportError m)
        AccountRef.bob amt assetLocation).2
      = Except.error (SubxtError.Rpc m)
    ∧ (sign_and_send_batch_calls (BatchOutcome.transportError m) calls).2
      = Except.error (SubxtError.Rpc m)
    ∧ (∃ sub, prepare_setup (BatchOutcome.transportError m)
        = PanicOr.value (sub, [])) :=
  ⟨rfl, rfl, rfl, rfl, ⟨_, rfl⟩⟩

/-- C4: AssetTip::new(a) is the tip of amount a with no asset (native
payment); of_asset returns a new tip with the asset set and the amount
unchanged, and the result differs from the original tip, which itself
still denotes amount a with no asset; From of u128 is the zero-asset
constructor. -/
theorem assetTip_builder_contract (a n : Nat) (r : MultiLocation)
    (t : AssetTip) :
    AssetTip.new a = { tip := a, asset := none }
    ∧ (AssetTip.new a).of_asset r = { tip := a, asset := some r }
    ∧ (t.of_asset r).tip = t.tip
    ∧ (AssetTip.new a).of_asset r ≠ AssetTip.new a
    ∧ AssetTip.fromU128 n = AssetTip.new n := by
  refine ⟨rfl, rfl, rfl, ?_, rfl⟩
  simp [AssetTip.new, AssetTip.of_asset]

/-- C5: for every constructible AssetTip (amount in u128 range, asset
fields in the range of their Rust types), decoding the SCALE encoding
(compact amount, then optional asset) returns the original tip with
nothing left over. -/
theorem assetTip_encode_decode_roundtrip (t : AssetTip) (_hwf : t.wf) :
    decodeAssetTip (encodeAssetTip t) = some (t, []) :=
  decodeAssetTip_encodeAssetTip t

/-- C5 witness: the roundtrip at a concrete constructible tip. -/
theorem assetTip_encode_decode_roundtrip_witness :
    ((AssetTip.new 77).of_asset assetLocation).wf
    ∧ decodeAssetTip (encodeAssetTip ((AssetTip.new 77).of_asset assetLocation))
      = some ((AssetTip.new 77).of_asset assetLocation, []) :=
  ⟨by decide, assetTip_encode_decode_roundtrip _ (by decide)⟩

/-- C6: for every destination, amount, tip asset location and node
behaviour, the tip-paid transfer submits a transfer-keep-alive carrying
the tip AssetTip::new(0).of_asset(multi): the native tip amount is
exactly zero and the asset field names the tip asset. -/
theorem transfer_tip_zero_of_asset (o : TransferChainOutcome)
    (dest : AccountRef) (amount : Nat) (multi : MultiLocation) :
    (sign_and_send_transfer o dest amount multi).1
      = { tx := Tx.balancesTransferKeepAlive dest amount
        , tipParam := (AssetTip.new 0).of_asset multi
        , wait := WaitMode.finalized }
    ∧ (sign_and_send_transfer o dest amount multi).1.tipParam.tip = 0
    ∧ (sign_and_send_transfer o dest amount multi).1.tipParam.asset
      = some multi :=
  ⟨rfl, rfl, rfl⟩

/-- C7: the setup orchestrator assembles its call buffer as exactly the
five calls, in the fixed order create-asset (id 1, min balance 1),
set-metadata (name Asset1, symbol A1, decimals 0), mint
(100000000000000), create-pool (native vs asset 1), add-liquidity
(desired (10000000000, 10000000), minimums (0, 0)), and submits them as
one utility.batch_all batch. -/
theorem prepare_setup_single_batch (o : BatchOutcome) :
    setupCallsE = Except.ok expectedSetupCalls
    ∧ ∃ stderrLines, prepare_setup o
        = PanicOr.value
          ( { tx := Tx.utilityBatchAll expectedSetupCalls
            , tipParam := AssetTip.defaultValue
            , wait := WaitMode.inBlock }
          , stderrLines ) :=
  ⟨rfl, ⟨_, rfl⟩⟩

/-- C8: when the setup batch is rejected with a dispatch error, the
orchestrator prints the dispatch diagnostic to stderr and the run
continues: the fee-estimation, conversion and tip-paid-transfer steps
all still execute (shown here for a run whose later steps respond). -/
theorem setup_dispatch_degrade_and_continue (env : Env) (m : String)
    (f q : Nat)
    (hs : env.setupOutcome = BatchOutcome.dispatchError m)
    (he : env.estimateOutcome = EstimateOutcome.fee f)
    (hc : env.convertOutcome = RuntimeApiOutcome.quote (some q)) :
    mainRun env = PanicOr.value
      [ StepEvent.setupSubmitted
          { tx := Tx.utilityBatchAll expectedSetupCalls
          , tipParam := AssetTip.defaultValue
          , wait := WaitMode.inBlock }
      , StepEvent.setupDone ["Could not dispatch the call: " ++ m]
      , StepEvent.sleepSecs 2
      , StepEvent.estimated f
      , StepEvent.converted
      , StepEvent.transferSubmitted expectedTransferSubmission
      , StepEvent.transferReturned
          (sign_and_send_transfer env.transferOutcome AccountRef.bob
            100000 assetLocation).2 ] := by
  cases env with
  | mk s e c t =>
    simp only at hs he hc
    subst hs he hc
    rfl

/-- C8 witness: a concrete run whose setup batch dispatch-fails and whose
later steps respond. -/
theorem setup_dispatch_degrade_and_continue_witness :
    ({ setupOutcome := BatchOutcome.dispatchError "Assets.InUse"
     , estimateOutcome := EstimateOutcome.fee 1537
     , convertOutcome := RuntimeApiOutcome.quote (some 21)
     , transferOutcome :=
         TransferChainOutcome.finalizedSuccess [EventKind.assetTxFeePaid]
     } : Env).setupOutcome = BatchOutcome.dispatchError "Assets.InUse"
    ∧ mainRun
      { setupOutcome := BatchOutcome.dispatchError "Assets.InUse"
      , estimateOutcome := EstimateOutcome.fee 1537
      , convertOutcome := RuntimeApiOutcome.quote (some 21)
      , transferOutcome :=
          TransferChainOutcome.finalizedSuccess [EventKind.assetTxFeePaid] }
      = PanicOr.value
        [ StepEvent.setupSubmitted
            { tx := Tx.utilityBatchAll expectedSetupCalls
            , tipParam := AssetTip.defaultValue
            , wait := WaitMode.inBlock }
        , StepEvent.setupDone ["Could not dispatch the call: Assets.InUse"]
        , StepEvent.sleepSecs 2
        , StepEvent.estimated 1537
        , StepEvent.converted
        , StepEvent.transferSubmitted expectedTransferSubmission
        , StepEvent.transferReturned
            (sign_and_send_transfer
              (TransferChainOutcome.finalizedSuccess
                [EventKind.assetTxFeePaid])
              AccountRef.bob 100000 assetLocation).2 ] :=
  ⟨rfl, setup_dispatch_degrade_and_continue _ "Assets.InUse" 1537 21
    rfl rfl rfl⟩

/-- C9: the batch submitter watches its submission only to in-block
success, never to finalization, and the orchestrator inserts only a
fixed 2-second sleep between setup and fee estimation, so estimation can
begin before the setup batch is finalized. -/
theorem batch_in_block_and_fixed_sleep (env : Env) (f q : Nat)
    (he : env.estimateOutcome = EstimateOutcome.fee f)
    (hc : env.convertOutcome = RuntimeApiOutcome.quote (some q)) :
    (sign_and_send_batch_calls env.setupOutcome expectedSetupCalls).1.wait
      = WaitMode.inBlock
    ∧ WaitMode.inBlock ≠ WaitMode.finalized
    ∧ ∃ stderrLines, mainRun env = PanicOr.value
        [ StepEvent.setupSubmitted
            (sign_and_send_batch_calls env.setupOutcome
              expectedSetupCalls).1
        , StepEvent.setupDone stderrLines
        , StepEvent.sleepSecs 2
        , StepEvent.estimated f
        , StepEvent.converted
        , StepEvent.transferSubmitted expectedTransferSubmission
        , StepEvent.transferReturned
            (sign_and_send_transfer env.transferOutcome AccountRef.bob
              100000 assetLocation).2 ] := by
  refine ⟨rfl, by decide, ?_⟩
  cases env with
  | mk s e c t =>
    simp only at he hc
    subst he hc
    exact ⟨_, rfl⟩

/-- C9 witness: a concrete run reaching the estimation step. -/
theorem batch_in_block_and_fixed_sleep_witness :
    ({ setupOutcome := BatchOutcome.inBlockSuccess
     , estimateOutcome := EstimateOutcome.fee 1537
     , convertOutcome := RuntimeApiOutcome.quote (some 21)
     , transferOutcome :=
         TransferChainOutcome.finalizedSuccess [EventKind.assetTxFeePaid]
     } : Env).estimateOutcome = EstimateOutcome.fee 1537
    ∧ ((sign_and_send_batch_calls BatchOutcome.inBlockSuccess
        expectedSetupCalls).1.wait = WaitMode.inBlock
      ∧ WaitMode.inBlock ≠ WaitMode.finalized
      ∧ ∃ stderrLines, mainRun
          { setupOutcome := BatchOutcome.inBlockSuccess
          , estimateOutcome := EstimateOutcome.fee 1537
          , convertOutcome := RuntimeApiOutcome.quote (some 21)
          , transferOutcome :=
              TransferChainOutcome.finalizedSuccess
                [EventKind.assetTxFeePaid] }
          = PanicOr.value
            [ StepEvent.setupSubmitted
                (sign_and_send_batch_calls BatchOutcome.inBlockSuccess
                  expectedSetupCalls).1
            , StepEvent.setupDone stderrLines
            , StepEvent.sleepSecs 2
            , StepEvent.estimated 1537
            , StepEvent.converted
            , StepEvent.transferSubmitted expectedTransferSubmission
            , StepEvent.transferReturned
                (sign_and_send_transfer
                  (TransferChainOutcome.finalizedSuccess
                    [EventKind.assetTxFeePaid])
                  AccountRef.bob 100000 assetLocation).2 ]) :=
  ⟨rfl, batch_in_block_and_fixed_sleep _ 1537 21 rfl rfl⟩

/-- C10: two runs that differ only in the oracle's conversion quote are
identical, and in particular submit the identical tip-paid transfer:
transfer-keep-alive of 100000 to bob with tip
AssetTip::new(0).of_asset(custom asset). The converted fee amount never
influences the transfer that follows it. -/
theorem transfer_independent_of_converted_fee (env : Env) (q1 q2 f : Nat)
    (he : env.estimateOutcome = EstimateOutcome.fee f) :
    mainRun { env with convertOutcome := RuntimeApiOutcome.quote (some q1) }
      = mainRun
        { env with convertOutcome := RuntimeApiOutcome.quote (some q2) }
    ∧ ∃ tr,
        mainRun { env with
          convertOutcome := RuntimeApiOutcome.quote (some q1) }
          = PanicOr.value tr
        ∧ StepEvent.transferSubmitted expectedTransferSubmission ∈ tr
        ∧ expectedTransferSubmission.tx
          = Tx.balancesTransferKeepAlive AccountRef.bob 100000
        ∧ expectedTransferSubmission.tipParam
          = (AssetTip.new 0).of_asset assetLocation := by
  cases env with
  | mk s e c t =>
    simp only at he
    subst he
    refine ⟨rfl, ⟨_, rfl, ?_, rfl, rfl⟩⟩
    simp only [List.mem_cons]
    exact Or.inr (Or.inr (Or.inr (Or.inr (Or.inr (Or.inl rfl)))))

/-- C10 witness: a concrete pair of runs differing only in the quote. -/
theorem transfer_independent_of_converted_fee_witness :
    ({ setupOutcome := BatchOutcome.inBlockSuccess
     , estimateOutcome := EstimateOutcome.fee 1537
     , convertOutcome := RuntimeApiOutcome.quote (some 3)
     , transferOutcome :=
         TransferChainOutcome.finalizedSuccess [EventKind.assetTxFeePaid]
     } : Env).estimateOutcome = EstimateOutcome.fee 1537
    ∧ (mainRun
        { setupOutcome := BatchOutcome.inBlockSuccess
        , estimateOutcome := EstimateOutcome.fee 1537
        , convertOutcome := RuntimeApiOutcome.quote (some 3)
        , transferOutcome :=
            TransferChainOutcome.finalizedSuccess
              [EventKind.assetTxFeePaid] }
        = mainRun
          { setupOutcome := BatchOutcome.inBlockSuccess
          , estimateOutcome := EstimateOutcome.fee 1537
          , convertOutcome := RuntimeApiOutcome.quote (some 888888)
          , transferOutcome :=
              TransferChainOutcome.finalizedSuccess
                [EventKind.assetTxFeePaid] }
      ∧ ∃ tr,
          mainRun
            { setupOutcome := BatchOutcome.inBlockSuccess
            , estimateOutcome := EstimateOutcome.fee 1537
            , convertOutcome := RuntimeApiOutcome.quote (some 3)
            , transferOutcome :=
                TransferChainOutcome.finalizedSuccess
                  [EventKind.assetTxFeePaid] }
            = PanicOr.value tr
          ∧ StepEvent.transferSubmitted expectedTransferSubmission ∈ tr
          ∧ expectedTransferSubmission.tx
            = Tx.balancesTransferKeepAlive AccountRef.bob 100000
          ∧ expectedTransferSubmission.tipParam
            = (AssetTip.new 0).of_asset assetLocation) :=
  ⟨rfl, transfer_independent_of_converted_fee
    { setupOutcome := BatchOutcome.inBlockSuccess
    , estimateOutcome := EstimateOutcome.fee 1537
    , convertOutcome := RuntimeApiOutcome.quote (some 3)
    , transferOutcome :=
        TransferChainOutcome.finalizedSuccess [EventKind.assetTxFeePaid] }
    3 888888 1537 rfl⟩

end AssetConv
